import Mathlib

/- Verification development for the investment-growth scenario simulator.
   The engine is embedded shallowly: the seeded RNG, the baseline projector,
   the drag adjuster, the crisis model, the volatility injector, the
   max-drawdown metric, and the asset add/remove handlers are translated
   from the React component source into Lean definitions.  Exact rational
   arithmetic stands in for JavaScript numbers; rounding to two decimals
   (toFixed(2) followed by parseFloat) is modelled by the round2 functions;
   the transcendental parts of the Box-Muller transform and of the
   fractional recovery exponents live in the reals. -/

inductive CrisisType
  | NONE
  | RISK_OFF
  | RISING_RATES
  deriving DecidableEq

inductive RecoveryType
  | V_SHAPED
  | U_SHAPED
  | L_SHAPED
  deriving DecidableEq

/-- An asset row of the `assets` map.  The source field `return` is a Lean
keyword, so it is called `ret` here; all other field names follow the source. -/
structure Asset where
  ret : ℚ
  volatility : ℚ
  drawdownImpact : ℚ
  color : String
  isBaseline : Bool
  crisisSensitivity : ℚ
  deriving DecidableEq

/-- The scalar scenario configuration read by the simulation pipeline. -/
structure Config where
  initialAmount : ℚ
  years : ℕ
  annualFees : ℚ
  inflationRate : ℚ
  enableRisk : Bool
  crisisType : CrisisType
  drawdown : ℚ
  recoveryYears : ℚ
  recoveryType : RecoveryType
  enableVolatility : Bool
  volatilityLevel : ℚ
  randomSeedBase : ℤ
  deriving DecidableEq

/-- One step of the Lehmer generator from the source:
seed = (seed * 16807) % 2147483647, where % is the JavaScript remainder
(sign of the dividend), Int.tmod. -/
def nextSeed (s : ℤ) : ℤ := Int.tmod (s * 16807) 2147483647

/-- seededRandom from the source: advances the seed and returns
(seed - 1) / 2147483646 together with the new seed. -/
def seededRandom (s : ℤ) : ℚ × ℤ :=
  let s2 := nextSeed s
  (((s2 : ℚ) - 1) / 2147483646, s2)

/-- The Box-Muller transform applied to two uniform draws:
sqrt(-2 ln u1) * cos(2 pi u2). -/
noncomputable def boxMuller (u1 u2 : ℚ) : ℝ :=
  Real.sqrt (-2 * Real.log (u1 : ℝ)) * Real.cos (2 * Real.pi * (u2 : ℝ))

/-- normalRandom from the source: two sequential uniform draws fed through
Box-Muller, advancing the seed by two steps. -/
noncomputable def normalRandom (s : ℤ) : ℝ × ℤ :=
  let p1 := seededRandom s
  let p2 := seededRandom p1.2
  (boxMuller p1.1 p2.1, p2.2)

/-- Draws n normal deviates in sequence, threading the seed. -/
noncomputable def drawNormals : ℤ → ℕ → List ℝ × ℤ
  | s, 0 => ([], s)
  | s, n + 1 =>
    let p := normalRandom s
    let rest := drawNormals p.2 n
    (p.1 :: rest.1, rest.2)

/-- Worker for randomFactors: walks the asset list in insertion order.  A
baseline asset gets years+1 zeros and consumes no RNG state; any other asset
consumes years+1 normal deviates, each scaled by its volatility and by the
global volatilityLevel. -/
noncomputable def randomFactorsAux (years : ℕ) (vl : ℚ) :
    ℤ → List (String × Asset) → List (String × List ℝ)
  | _, [] => []
  | s, (n, a) :: rest =>
    if a.isBaseline then
      (n, List.replicate (years + 1) 0) :: randomFactorsAux years vl s rest
    else
      let d := drawNormals s (years + 1)
      (n, d.1.map (fun x => x * (a.volatility : ℝ) * (vl : ℝ))) ::
        randomFactorsAux years vl d.2 rest

/-- randomFactors from the source, as a function of the seed base, the year
count, the volatility level and the asset list. -/
noncomputable def randomFactors (seedBase : ℤ) (years : ℕ) (vl : ℚ)
    (assets : List (String × Asset)) : List (String × List ℝ) :=
  randomFactorsAux years vl seedBase assets

/-- The part of an asset entry that the RNG stage actually reads: its key,
its volatility and its baseline flag. -/
def rngKey (p : String × Asset) : String × ℚ × Bool :=
  (p.1, p.2.volatility, p.2.isBaseline)

/-- Iterative compounding from baselineData: value starts at amount and is
multiplied by (1 + r/100) once per elapsed year. -/
def compound (amount r : ℚ) : ℕ → ℚ
  | 0 => amount
  | y + 1 => compound amount r y * (1 + r / 100)

/-- Monetary rounding: parseFloat(x.toFixed(2)), i.e. rounding to two
decimal places. -/
def round2 (q : ℚ) : ℚ := (round (100 * q) : ℤ) / 100

/-- The same rounding on the reals, for the volatility stage and metrics. -/
noncomputable def round2R (x : ℝ) : ℝ := ((round (100 * x) : ℤ) : ℝ) / 100

/-- One cell of baselineData: the baseline column is the initial amount
rounded to two decimals; every other column is the compounded value rounded
to two decimals. -/
def baselineCol (cfg : Config) (a : Asset) (y : ℕ) : ℚ :=
  if a.isBaseline then round2 cfg.initialAmount
  else round2 (compound cfg.initialAmount a.ret y)

/-- combinedAnnualDrag = (annualFees + inflationRate) / 100. -/
def combinedAnnualDrag (cfg : Config) : ℚ :=
  (cfg.annualFees + cfg.inflationRate) / 100

/-- The drag stage: years 1..years of every non-baseline column are divided
by (1 + combinedAnnualDrag)^year; year 0 and the baseline column are
untouched. -/
def dragged (cfg : Config) (a : Asset) (y : ℕ) : ℚ :=
  if a.isBaseline = true ∨ y = 0 then baselineCol cfg a y
  else baselineCol cfg a y / (1 + combinedAnnualDrag cfg) ^ y

/-- The crisis sensitivity actually used by the crisis block:
asset.crisisSensitivity || 1, so a zero field is replaced by 1. -/
def effSensitivity (a : Asset) : ℚ :=
  if a.crisisSensitivity = 0 then 1 else a.crisisSensitivity

/-- drawdownImpactDecimal = (drawdown/100) * drawdownImpact * effective
crisis sensitivity. -/
def drawdownImpactDecimal (cfg : Config) (a : Asset) : ℚ :=
  cfg.drawdown / 100 * a.drawdownImpact * effSensitivity a

/-- The permanent damage factor: baseDamage = drawdownImpactDecimal * 0.4,
sensitivity-adjusted by the effective sensitivity, then offset per crisis
type (0.90 for RISK_OFF, 0.85 with the min-capped rates sensitivity for
RISING_RATES, 0.95 in the default branch). -/
def permanentDamage (cfg : Config) (a : Asset) : ℚ :=
  let sad := drawdownImpactDecimal cfg a * 0.4 * effSensitivity a
  match cfg.crisisType with
  | CrisisType.RISK_OFF => 0.90 - sad
  | CrisisType.RISING_RATES => 0.85 - sad * min (1.5 * effSensitivity a) 1
  | CrisisType.NONE => 0.95 - sad

/-- reducedReturn = asset return * permanent damage factor. -/
def reducedReturn (cfg : Config) (a : Asset) : ℚ :=
  a.ret * permanentDamage cfg a

/-- recoveryTarget for year y: the drag-adjusted no-crisis value
baselineData[y] / (1 + combinedAnnualDrag)^y times the permanent damage
factor. -/
def recoveryTarget (cfg : Config) (a : Asset) (y : ℕ) : ℚ :=
  baselineCol cfg a y / (1 + combinedAnnualDrag cfg) ^ y *
    permanentDamage cfg a

/-- The year-1 post-shock value: the drag-adjusted year-1 value multiplied
by (1 - drawdownImpactDecimal); the shock is guarded by years >= 1. -/
def shockValue (cfg : Config) (a : Asset) : ℚ :=
  if 1 ≤ cfg.years then dragged cfg a 1 * (1 - drawdownImpactDecimal cfg a)
  else dragged cfg a 1

/-- Recovery-shape exponent: 0.5 for V, 1.5 for U, 3 for L. -/
def recoveryExponent : RecoveryType → ℝ
  | RecoveryType.V_SHAPED => 0.5
  | RecoveryType.U_SHAPED => 1.5
  | RecoveryType.L_SHAPED => 3

/-- recoveryFactor = progress ^ exponent with progress = (y-1)/recoveryYears,
via the real power function (Math.pow with a fractional exponent). -/
noncomputable def recoveryFactor (cfg : Config) (y : ℕ) : ℝ :=
  Real.rpow (((((y : ℚ) - 1) / cfg.recoveryYears : ℚ) : ℝ))
    (recoveryExponent cfg.recoveryType)

/-- The crisis stage for one non-baseline column.  Year 1 takes the initial
shock; inside the recovery window (y <= recoveryYears + 1) the value
interpolates from the shock value toward recoveryTarget along the shape
curve, min-capped at the target; afterwards it grows from the previous year
at the reduced return, capped at the target. -/
noncomputable def crisisValue (cfg : Config) (a : Asset) : ℕ → ℝ
  | 0 => (dragged cfg a 0 : ℝ)
  | 1 => (shockValue cfg a : ℝ)
  | y + 2 =>
    let t : ℝ := (recoveryTarget cfg a (y + 2) : ℝ)
    if ((y : ℚ) + 2) ≤ cfg.recoveryYears + 1 then
      let dv : ℝ := (shockValue cfg a : ℝ)
      min (dv + (t - dv) * recoveryFactor cfg (y + 2)) t
    else
      let v := crisisValue cfg a (y + 1) * ((1 + reducedReturn cfg a / 100 : ℚ) : ℝ)
      if t < v then t else v

/-- The value of one column after the conditional crisis stage: the crisis
model runs only when enableRisk is set, the crisis type is not NONE, and the
asset is not the baseline. -/
noncomputable def afterCrisis (cfg : Config) (a : Asset) (y : ℕ) : ℝ :=
  if cfg.enableRisk = true ∧ cfg.crisisType ≠ CrisisType.NONE ∧
      a.isBaseline = false then
    crisisValue cfg a y
  else (dragged cfg a y : ℝ)

/-- The finished trajectory value of one column, with f the random factor
stream of this asset: the volatility stage multiplies years 1..years of
non-baseline columns by (1 + factor) and rounds to two decimals. -/
noncomputable def trajValue (cfg : Config) (a : Asset) (f : ℕ → ℝ) (y : ℕ) : ℝ :=
  if cfg.enableVolatility = true ∧ 1 ≤ y ∧ a.isBaseline = false then
    round2R (afterCrisis cfg a y * (1 + f y))
  else afterCrisis cfg a y

/-- The running (peak, maxDrawdown) pair of the metrics loop after
processing years 1..n of the trajectory v. -/
noncomputable def maxDrawdownAux (v : ℕ → ℝ) : ℕ → ℝ × ℝ
  | 0 => (v 0, 0)
  | n + 1 =>
    let p := maxDrawdownAux v n
    let cur := v (n + 1)
    let peak := if p.1 < cur then cur else p.1
    (peak, max p.2 ((peak - cur) / peak * 100))

/-- The reported maxDrawdown metric: the loop result rounded to two
decimals. -/
noncomputable def maxDrawdownMetric (v : ℕ → ℝ) (years : ℕ) : ℝ :=
  round2R (maxDrawdownAux v years).2

/-- Lookup in the insertion-ordered asset map. -/
def lookupAsset (assets : List (String × Asset)) (name : String) : Option Asset :=
  (assets.find? (fun p => p.1 == name)).map (fun p => p.2)

/-- handleRemoveAsset: reading a missing key faults (none); a baseline asset
returns the map unchanged; otherwise the entry is deleted. -/
def handleRemoveAsset (name : String) (assets : List (String × Asset)) :
    Option (List (String × Asset)) :=
  match lookupAsset assets name with
  | none => none
  | some a =>
    if a.isBaseline then some assets
    else some (assets.filter (fun p => !(p.1 == name)))

/-- The fixed default fields of a newly added asset. -/
def defaultNewAsset : Asset :=
  { ret := 5, volatility := 0.1, drawdownImpact := 0.5, color := "#999999",
    isBaseline := false, crisisSensitivity := 1.0 }

/-- The generated name: the template New Asset followed by the current asset
count. -/
def newAssetName (assets : List (String × Asset)) : String :=
  "New Asset " ++ toString assets.length

/-- JavaScript object spread with a computed key: an existing key is
overwritten in place, a fresh key is appended. -/
def insertAsset (assets : List (String × Asset)) (name : String) (a : Asset) :
    List (String × Asset) :=
  if assets.any (fun p => p.1 == name) then
    assets.map (fun p => if p.1 == name then (name, a) else p)
  else assets ++ [(name, a)]

/-- handleAddAsset: insert the default asset under the generated name. -/
def handleAddAsset (assets : List (String × Asset)) : List (String × Asset) :=
  insertAsset assets (newAssetName assets) defaultNewAsset

/-- The S and P 500 row of the default asset table. -/
def asset7 : Asset :=
  { ret := 7, volatility := 0.15, drawdownImpact := 1.0, color := "#ff7300",
    isBaseline := false, crisisSensitivity := 1.0 }

/-- The baseline row of the default asset table. -/
def baselineAsset : Asset :=
  { ret := 0, volatility := 0, drawdownImpact := 0, color := "#000000",
    isBaseline := true, crisisSensitivity := 0 }

/-- The end-to-end test configuration: 100000 over 5 years, no fees, no
inflation, no crisis, no volatility. -/
def cfg5 : Config :=
  { initialAmount := 100000, years := 5, annualFees := 0, inflationRate := 0,
    enableRisk := false, crisisType := CrisisType.NONE, drawdown := 0,
    recoveryYears := 1, recoveryType := RecoveryType.V_SHAPED,
    enableVolatility := false, volatilityLevel := 1, randomSeedBase := 1 }

/-- The same configuration with an initial amount that does not fit in two
decimal places. -/
def cfgTiny : Config := { cfg5 with initialAmount := 1 / 250 }

/-- A concrete all-zero factor stream. -/
def zeroFactors : ℕ → ℝ := fun _ => 0

lemma trajValue_no_flags (cfg : Config) (a : Asset) (f : ℕ → ℝ) (y : ℕ)
    (hr : cfg.enableRisk = false) (hv : cfg.enableVolatility = false) :
    trajValue cfg a f y = (dragged cfg a y : ℝ) := by
  simp [trajValue, afterCrisis, hr, hv]

lemma compound_eq_pow (amount r : ℚ) (y : ℕ) :
    compound amount r y = amount * (1 + r / 100) ^ y := by
  induction y with
  | zero => simp [compound]
  | succ n ih => rw [compound, ih, pow_succ]; ring

lemma dragged_eq_closed (cfg : Config) (a : Asset) (y : ℕ)
    (hb : a.isBaseline = false) :
    dragged cfg a y =
      round2 (cfg.initialAmount * (1 + a.ret / 100) ^ y) /
        (1 + combinedAnnualDrag cfg) ^ y := by
  rcases Nat.eq_zero_or_pos y with h0 | hpos
  · subst h0
    simp [dragged, baselineCol, hb, compound]
  · have hne : y ≠ 0 := Nat.pos_iff_ne_zero.mp hpos
    simp [dragged, baselineCol, hb, hne, compound_eq_pow]

lemma dragged_cfg5_asset7_5 : dragged cfg5 asset7 5 = 14025517 / 100 := by
  rw [dragged_eq_closed cfg5 asset7 5 rfl]
  norm_num [cfg5, asset7, combinedAnnualDrag, round2, round_eq]

lemma trajValue_cfg5_5 :
    trajValue cfg5 asset7 zeroFactors 5 = ((14025517 / 100 : ℚ) : ℝ) := by
  rw [trajValue_no_flags cfg5 asset7 zeroFactors 5 rfl rfl, dragged_cfg5_asset7_5]

/-- C5: with initialAmount 100000, 5 years, no fees, no inflation, no crisis
and no volatility, a non-baseline asset returning 7 percent ends year 5 at
exactly 140255.17, the compounded value rounded to two decimals. -/
theorem year5_value_is_140255_17 :
    trajValue cfg5 asset7 zeroFactors 5 = (140255.17 : ℝ) := by
  rw [trajValue_cfg5_5]
  norm_num

/-- C4 as amended: with risk and volatility disabled, a non-baseline column
equals the compounded value rounded to two decimals at construction, divided
by the drag factor; the crisis and volatility stages are no-ops. -/
theorem noCrisis_closed_form (cfg : Config) (a : Asset) (f : ℕ → ℝ) (y : ℕ)
    (hr : cfg.enableRisk = false) (hv : cfg.enableVolatility = false)
    (hb : a.isBaseline = false) (hy : y ≤ cfg.years) :
    trajValue cfg a f y =
      ((round2 (cfg.initialAmount * (1 + a.ret / 100) ^ y) /
        (1 + (cfg.annualFees + cfg.inflationRate) / 100) ^ y : ℚ) : ℝ) := by
  rw [trajValue_no_flags cfg a f y hr hv, dragged_eq_closed cfg a y hb]
  rfl

/-- C4 counterexample: at the end-to-end configuration the year-5 value is
the rounded 140255.17, not the unrounded closed form 140255.17307. -/
theorem noCrisis_closed_form_not_exact :
    trajValue cfg5 asset7 zeroFactors 5 ≠
      ((100000 * (1 + 7 / 100) ^ 5 : ℚ) : ℝ) := by
  rw [trajValue_cfg5_5]
  have h : (14025517 / 100 : ℚ) ≠ 100000 * (1 + 7 / 100) ^ 5 := by norm_num
  exact_mod_cast h

/-- Witness for the amended C4 at the concrete end-to-end configuration. -/
theorem noCrisis_closed_form_witness :
    trajValue cfg5 asset7 zeroFactors 5 =
      ((round2 (cfg5.initialAmount * (1 + asset7.ret / 100) ^ 5) /
        (1 + (cfg5.annualFees + cfg5.inflationRate) / 100) ^ 5 : ℚ) : ℝ) :=
  noCrisis_closed_form cfg5 asset7 zeroFactors 5 rfl rfl rfl (by decide)

/-- C3 as amended: the baseline column equals the initial amount rounded to
two decimals at construction, for every year and every configuration, factor
stream included; none of the drag, crisis or volatility stages touch it. -/
theorem baseline_trajectory_constant (cfg : Config) (a : Asset) (f : ℕ → ℝ)
    (y : ℕ) (hb : a.isBaseline = true) (hy : y ≤ cfg.years) :
    trajValue cfg a f y = ((round2 cfg.initialAmount : ℚ) : ℝ) := by
  simp [trajValue, afterCrisis, dragged, baselineCol, hb]

/-- C3 counterexample: with initialAmount 0.004 the baseline column holds
0.00, not the initial amount itself. -/
theorem baseline_not_exact_initialAmount :
    trajValue cfgTiny baselineAsset zeroFactors 1 ≠
      ((cfgTiny.initialAmount : ℚ) : ℝ) := by
  have h1 : trajValue cfgTiny baselineAsset zeroFactors 1 =
      ((round2 (1 / 250) : ℚ) : ℝ) := by
    simp [trajValue, afterCrisis, dragged, baselineCol, baselineAsset,
      cfgTiny, cfg5]
  have h2 : round2 (1 / 250) = 0 := by norm_num [round2, round_eq]
  rw [h1, h2]
  have h3 : (0 : ℚ) ≠ cfgTiny.initialAmount := by norm_num [cfgTiny, cfg5]
  exact_mod_cast h3

/-- Witness for the amended C3 at a concrete year and configuration. -/
theorem baseline_trajectory_constant_witness :
    trajValue cfg5 baselineAsset zeroFactors 3 =
      ((round2 cfg5.initialAmount : ℚ) : ℝ) :=
  baseline_trajectory_constant cfg5 baselineAsset zeroFactors 3 rfl (by decide)

/-- A crisis configuration: RISK_OFF with a 40 percent market drawdown. -/
def cfgCrisis : Config :=
  { initialAmount := 100000, years := 3, annualFees := 0, inflationRate := 2.5,
    enableRisk := true, crisisType := CrisisType.RISK_OFF, drawdown := 40,
    recoveryYears := 1, recoveryType := RecoveryType.V_SHAPED,
    enableVolatility := false, volatilityLevel := 1, randomSeedBase := 1 }

/-- An asset whose crisisSensitivity field is zero but which is not the
baseline. -/
def assetZeroSens : Asset :=
  { ret := 7, volatility := 0.15, drawdownImpact := 1.0, color := "#ff7300",
    isBaseline := false, crisisSensitivity := 0 }

/-- C1 as amended: whenever the crisis model runs and the asset has a
nonzero crisisSensitivity in (0, 2], drawdownImpactDecimal is
(drawdown/100) times the drawdownImpact times that crisisSensitivity, and
for RISK_OFF the permanent damage factor is
0.90 - (drawdownImpactDecimal * 0.4) * crisisSensitivity; at
crisisSensitivity = 0 the code substitutes 1 instead. -/
theorem crisis_formulas_nonzero_sensitivity (cfg : Config) (a : Asset)
    (hr : cfg.enableRisk = true) (hc : cfg.crisisType ≠ CrisisType.NONE)
    (hb : a.isBaseline = false) (hpos : 0 < a.crisisSensitivity)
    (hle : a.crisisSensitivity ≤ 2) :
    drawdownImpactDecimal cfg a =
      cfg.drawdown / 100 * a.drawdownImpact * a.crisisSensitivity ∧
    (cfg.crisisType = CrisisType.RISK_OFF →
      permanentDamage cfg a =
        0.90 - drawdownImpactDecimal cfg a * 0.4 * a.crisisSensitivity) := by
  have hs : effSensitivity a = a.crisisSensitivity := by
    simp [effSensitivity, ne_of_gt hpos]
  refine ⟨by simp [drawdownImpactDecimal, hs], fun hco => ?_⟩
  simp [permanentDamage, hco, hs]

/-- C1 counterexample: for a non-baseline asset with crisisSensitivity 0 and
drawdownImpact 1 under a 40 percent RISK_OFF drawdown, the code computes
drawdownImpactDecimal 0.4, not the 0 the stated formula requires. -/
theorem crisis_formula_fails_at_zero_sensitivity :
    drawdownImpactDecimal cfgCrisis assetZeroSens ≠
      cfgCrisis.drawdown / 100 * assetZeroSens.drawdownImpact *
        assetZeroSens.crisisSensitivity := by
  norm_num [drawdownImpactDecimal, effSensitivity, cfgCrisis, assetZeroSens]

/-- Witness for the amended C1 at the default S and P 500 asset under the
RISK_OFF crisis configuration. -/
theorem crisis_formulas_nonzero_sensitivity_witness :
    drawdownImpactDecimal cfgCrisis asset7 =
      cfgCrisis.drawdown / 100 * asset7.drawdownImpact *
        asset7.crisisSensitivity ∧
    (cfgCrisis.crisisType = CrisisType.RISK_OFF →
      permanentDamage cfgCrisis asset7 =
        0.90 - drawdownImpactDecimal cfgCrisis asset7 * 0.4 *
          asset7.crisisSensitivity) :=
  crisis_formulas_nonzero_sensitivity cfgCrisis asset7 rfl (by decide) rfl
    (by norm_num [asset7]) (by norm_num [asset7])

/-- C10: a non-baseline asset whose crisisSensitivity field is 0 is treated
by the crisis model as if its sensitivity were 1: drawdownImpactDecimal is
(drawdown/100) times drawdownImpact times 1, and for RISK_OFF the permanent
damage adjustment also uses sensitivity 1. -/
theorem zero_sensitivity_treated_as_one (cfg : Config) (a : Asset)
    (hr : cfg.enableRisk = true) (hc : cfg.crisisType ≠ CrisisType.NONE)
    (hb : a.isBaseline = false) (hz : a.crisisSensitivity = 0) :
    drawdownImpactDecimal cfg a =
      cfg.drawdown / 100 * a.drawdownImpact * 1 ∧
    (cfg.crisisType = CrisisType.RISK_OFF →
      permanentDamage cfg a =
        0.90 - drawdownImpactDecimal cfg a * 0.4 * 1) := by
  have hs : effSensitivity a = 1 := by simp [effSensitivity, hz]
  refine ⟨by simp [drawdownImpactDecimal, hs], fun hco => ?_⟩
  simp [permanentDamage, hco, hs]

/-- Witness for C10 at the zero-sensitivity asset under the RISK_OFF
configuration. -/
theorem zero_sensitivity_treated_as_one_witness :
    drawdownImpactDecimal cfgCrisis assetZeroSens =
      cfgCrisis.drawdown / 100 * assetZeroSens.drawdownImpact * 1 ∧
    (cfgCrisis.crisisType = CrisisType.RISK_OFF →
      permanentDamage cfgCrisis assetZeroSens =
        0.90 - drawdownImpactDecimal cfgCrisis assetZeroSens * 0.4 * 1) :=
  zero_sensitivity_treated_as_one cfgCrisis assetZeroSens rfl (by decide) rfl
    rfl

/-- C2: when the crisis model runs and volatility is disabled, every
non-baseline trajectory value from year 2 through the final year is bounded
above by that year's recoveryTarget, in the recovery window through the min
cap and afterwards through the explicit cap. -/
theorem scenario_le_recoveryTarget (cfg : Config) (a : Asset) (f : ℕ → ℝ)
    (y : ℕ) (hr : cfg.enableRisk = true) (hc : cfg.crisisType ≠ CrisisType.NONE)
    (hv : cfg.enableVolatility = false) (hb : a.isBaseline = false)
    (h2 : 2 ≤ y) (hy : y ≤ cfg.years) :
    trajValue cfg a f y ≤ ((recoveryTarget cfg a y : ℚ) : ℝ) := by
  have hT : trajValue cfg a f y = crisisValue cfg a y := by
    simp [trajValue, afterCrisis, hr, hc, hb, hv]
  obtain ⟨k, rfl⟩ : ∃ k, y = k + 2 := ⟨y - 2, by omega⟩
  rw [hT]
  simp only [crisisValue]
  split
  · exact min_le_right _ _
  · split
    · exact le_refl _
    · next h => exact le_of_not_lt h

/-- Witness for C2 at year 2 of the RISK_OFF configuration. -/
theorem scenario_le_recoveryTarget_witness :
    trajValue cfgCrisis asset7 zeroFactors 2 ≤
      ((recoveryTarget cfgCrisis asset7 2 : ℚ) : ℝ) :=
  scenario_le_recoveryTarget cfgCrisis asset7 zeroFactors 2 rfl (by decide)
    rfl rfl (by decide) (by decide)

lemma maxDrawdownAux_snd_nonneg (v : ℕ → ℝ) : ∀ n, 0 ≤ (maxDrawdownAux v n).2 := by
  intro n
  induction n with
  | zero => simp [maxDrawdownAux]
  | succ m ih =>
    simp only [maxDrawdownAux]
    exact le_trans ih (le_max_left _ _)

lemma round2R_nonneg (x : ℝ) (hx : 0 ≤ x) : 0 ≤ round2R x := by
  unfold round2R
  have h1 : (0 : ℤ) ≤ round (100 * x) := by
    rw [round_eq]
    exact Int.floor_nonneg.mpr (by linarith)
  have h2 : (0 : ℝ) ≤ ((round (100 * x) : ℤ) : ℝ) := by exact_mod_cast h1
  exact div_nonneg h2 (by norm_num)

lemma round2R_zero : round2R 0 = 0 := by
  simp [round2R]

lemma maxDrawdownAux_of_monotone (v : ℕ → ℝ) (years : ℕ)
    (hmono : ∀ i, i < years → v i ≤ v (i + 1)) :
    ∀ n, n ≤ years → maxDrawdownAux v n = (v n, 0) := by
  intro n
  induction n with
  | zero => intro h; simp [maxDrawdownAux]
  | succ m ih =>
    intro h
    have hm := ih (by omega)
    have hstep := hmono m (by omega)
    simp only [maxDrawdownAux, hm]
    have hpeak : (if v m < v (m + 1) then v (m + 1) else v m) = v (m + 1) := by
      split
      · rfl
      · next h2 => exact le_antisymm hstep (le_of_not_lt h2)
    rw [hpeak]
    simp

/-- C7: the reported maxDrawdown metric of a finished trajectory with
positive values is nonnegative, and it is exactly zero whenever the
trajectory is monotonically non-decreasing over years 0..years. -/
theorem maxDrawdown_nonneg_and_zero_on_monotone (v : ℕ → ℝ) (years : ℕ)
    (hpos : ∀ i, i ≤ years → 0 < v i) :
    0 ≤ maxDrawdownMetric v years ∧
    ((∀ i, i < years → v i ≤ v (i + 1)) → maxDrawdownMetric v years = 0) := by
  constructor
  · exact round2R_nonneg _ (maxDrawdownAux_snd_nonneg v years)
  · intro hmono
    unfold maxDrawdownMetric
    rw [maxDrawdownAux_of_monotone v years hmono years le_rfl]
    exact round2R_zero

/-- A concrete strictly increasing trajectory. -/
def risingVals : ℕ → ℝ := fun n => 100 + (n : ℝ)

/-- Witness for C7 at a concrete rising three-year trajectory. -/
theorem maxDrawdown_nonneg_and_zero_witness :
    0 ≤ maxDrawdownMetric risingVals 2 ∧ maxDrawdownMetric risingVals 2 = 0 := by
  have hpos : ∀ i, i ≤ 2 → 0 < risingVals i := by
    intro i hi
    unfold risingVals
    positivity
  have hmono : ∀ i, i < 2 → risingVals i ≤ risingVals (i + 1) := by
    intro i hi
    unfold risingVals
    push_cast
    linarith
  exact ⟨(maxDrawdown_nonneg_and_zero_on_monotone risingVals 2 hpos).1,
    (maxDrawdown_nonneg_and_zero_on_monotone risingVals 2 hpos).2 hmono⟩

/-- C8: removing an asset whose isBaseline flag is set does not fault and
returns the asset map unchanged. -/
theorem remove_baseline_noop (assets : List (String × Asset)) (name : String)
    (a : Asset) (hl : lookupAsset assets name = some a)
    (hb : a.isBaseline = true) :
    handleRemoveAsset name assets = some assets := by
  simp [handleRemoveAsset, hl, hb]

/-- The key of the baseline row. -/
def baselineName : String := "Baseline (No Scenario)"

/-- The key of the S and P 500 row. -/
def nameSP : String := "SWPPX/SPX (S&P 500)"

/-- A two-row asset map with the baseline first. -/
def twoAssets : List (String × Asset) :=
  [(baselineName, baselineAsset), (nameSP, asset7)]

/-- Witness for C8 at the concrete two-row asset map. -/
theorem remove_baseline_noop_witness :
    handleRemoveAsset baselineName twoAssets = some twoAssets :=
  remove_baseline_noop twoAssets baselineName baselineAsset (by decide) rfl

/-- C9 as amended: when the generated name New Asset count is not already a
key, add appends exactly one entry carrying the fixed default fields,
increasing the asset count by one and leaving every existing entry
unchanged; a collision with an existing key instead overwrites that entry
in place. -/
theorem add_fresh_name_appends_default (assets : List (String × Asset))
    (hfresh : ∀ p ∈ assets, p.1 ≠ newAssetName assets) :
    handleAddAsset assets =
      assets ++ [(newAssetName assets, defaultNewAsset)] ∧
    (handleAddAsset assets).length = assets.length + 1 := by
  have hany : assets.any (fun p => p.1 == newAssetName assets) = false := by
    rw [List.any_eq_false]
    intro p hp
    simpa using hfresh p hp
  constructor
  · simp [handleAddAsset, insertAsset, hany]
  · simp [handleAddAsset, insertAsset, hany]

/-- The key New Asset 1, colliding with the generated name of a one-entry
map. -/
def collidingName : String := "New Asset 1"

/-- A one-entry asset map whose key is exactly the name the add handler
generates for a map of size one. -/
def collidingAssets : List (String × Asset) := [(collidingName, asset7)]

/-- C9 counterexample: adding to the one-entry map keyed New Asset 1
generates the same name, overwrites the entry and does not grow the map. -/
theorem add_name_collision_no_growth :
    ¬ (handleAddAsset collidingAssets).length =
        collidingAssets.length + 1 := by
  decide

/-- Witness for the amended C9 at a one-entry map with a fresh generated
name. -/
theorem add_fresh_name_appends_default_witness :
    handleAddAsset [(baselineName, baselineAsset)] =
      [(baselineName, baselineAsset)] ++
        [(newAssetName [(baselineName, baselineAsset)], defaultNewAsset)] ∧
    (handleAddAsset [(baselineName, baselineAsset)]).length =
      [(baselineName, baselineAsset)].length + 1 :=
  add_fresh_name_appends_default [(baselineName, baselineAsset)] (by decide)

lemma randomFactorsAux_congr (years : ℕ) (vl : ℚ) :
    ∀ (l1 l2 : List (String × Asset)) (s : ℤ),
      l1.map rngKey = l2.map rngKey →
      randomFactorsAux years vl s l1 = randomFactorsAux years vl s l2 := by
  intro l1
  induction l1 with
  | nil =>
    intro l2 s h
    cases l2 with
    | nil => rfl
    | cons q t2 => simp at h
  | cons p t ih =>
    intro l2 s h
    cases l2 with
    | nil => simp at h
    | cons q t2 =>
      obtain ⟨n1, a1⟩ := p
      obtain ⟨n2, a2⟩ := q
      simp only [List.map_cons, List.cons.injEq, rngKey, Prod.mk.injEq] at h
      obtain ⟨⟨hn, hvol, hbase⟩, ht⟩ := h
      subst hn
      by_cases hb1 : a1.isBaseline = true
      · have hb2 : a2.isBaseline = true := by rw [← hbase, hb1]
        simp only [randomFactorsAux, hb1, hb2, if_true]
        exact congrArg _ (ih t2 s ht)
      · have hb2 : ¬ a2.isBaseline = true := by rw [← hbase]; exact hb1
        simp only [randomFactorsAux, if_neg hb1, if_neg hb2]
        rw [hvol, ih t2 _ ht]

lemma randomFactorsAux_baseline_mem (years : ℕ) (vl : ℚ) :
    ∀ (l : List (String × Asset)) (s : ℤ) (name : String) (a : Asset),
      (name, a) ∈ l → a.isBaseline = true →
      (name, List.replicate (years + 1) (0 : ℝ)) ∈
        randomFactorsAux years vl s l := by
  intro l
  induction l with
  | nil =>
    intro s name a h
    simp at h
  | cons p t ih =>
    intro s name a hmem hb
    obtain ⟨n1, a1⟩ := p
    rcases List.mem_cons.mp hmem with heq | htail
    · have h1 : name = n1 := congrArg Prod.fst heq
      have h2 : a = a1 := congrArg Prod.snd heq
      subst h1
      subst h2
      simp only [randomFactorsAux, hb, if_true]
      exact List.mem_cons_self _ _
    · by_cases hb1 : a1.isBaseline = true
      · simp only [randomFactorsAux, if_pos hb1]
        exact List.mem_cons_of_mem _ (ih s name a htail hb)
      · simp only [randomFactorsAux, if_neg hb1]
        exact List.mem_cons_of_mem _ (ih _ name a htail hb)

/-- C6: the random factor table is a deterministic function of the seed
base, the year count, the volatility level and the per-asset data it reads
(key, volatility, baseline flag, in insertion order): two asset lists that
agree on those produce identical factor tables; and every baseline entry
carries the all-zero factor array of length years + 1. -/
theorem randomFactors_deterministic_and_baseline_zero :
    (∀ (s : ℤ) (years : ℕ) (vl : ℚ) (l1 l2 : List (String × Asset)),
      l1.map rngKey = l2.map rngKey →
      randomFactors s years vl l1 = randomFactors s years vl l2) ∧
    (∀ (s : ℤ) (years : ℕ) (vl : ℚ) (l : List (String × Asset))
      (name : String) (a : Asset), (name, a) ∈ l → a.isBaseline = true →
      (name, List.replicate (years + 1) (0 : ℝ)) ∈ randomFactors s years vl l) := by
  constructor
  · intro s years vl l1 l2 h
    exact randomFactorsAux_congr years vl l1 l2 s h
  · intro s years vl l name a hmem hb
    exact randomFactorsAux_baseline_mem years vl l s name a hmem hb

/-- A variant of the S and P 500 row differing only in fields the RNG stage
does not read. -/
def asset7var : Asset :=
  { ret := 42, volatility := 0.15, drawdownImpact := 2, color := "#123456",
    isBaseline := false, crisisSensitivity := 0.3 }

/-- The two-row map with the variant row in place of the original. -/
def twoAssetsVar : List (String × Asset) :=
  [(baselineName, baselineAsset), (nameSP, asset7var)]

/-- Witness for C6: the two concrete maps share keys, volatilities and
baseline flags, so their factor tables coincide, and the baseline entry is
the zero array of length 2 + 1. -/
theorem randomFactors_deterministic_witness :
    randomFactors 1 2 1 twoAssets = randomFactors 1 2 1 twoAssetsVar ∧
    (baselineName, List.replicate (2 + 1) (0 : ℝ)) ∈
      randomFactors 1 2 1 twoAssets :=
  ⟨randomFactors_deterministic_and_baseline_zero.1 1 2 1 twoAssets
      twoAssetsVar
      (by simp [twoAssets, twoAssetsVar, rngKey, asset7, asset7var]),
    randomFactors_deterministic_and_baseline_zero.2 1 2 1 twoAssets
      baselineName baselineAsset (by decide) rfl⟩
